import Mathlib

/-!
Verification of the Asimov robot module (`src/python/robot.py`).

The Python module is embedded shallowly: the mutable `Robot` object becomes
an explicit `RobotState` record threaded through the operations, exceptions
become an `Except` result paired with the post-call state, and the
process-wide `total_robots_created` counter becomes an explicit `Nat`
argument and result where it matters.  Python's unbounded `int` is `Int`,
and the `human_safety_impact` float (only ever compared against `0.0`,
an exact comparison) is `ℚ`.
-/

/-- `RobotStatus` enum from `robot.py`. -/
inductive RobotStatus where
  | active
  | idle
  | error
  | shutdown
deriving DecidableEq

/-- `.value` of the `RobotStatus` enum members. -/
def RobotStatus.value : RobotStatus → String
  | .active => "active"
  | .idle => "idle"
  | .error => "error"
  | .shutdown => "shutdown"

/-- The `Command` dataclass: action, optional target, priority (default 1),
human-safety-impact score (default 0.0). -/
structure Command where
  action : String
  target : Option String := none
  priority : Int := 1
  human_safety_impact : ℚ := 0
deriving DecidableEq

/-- The `LawViolationError` exception payload: the law number and the message
passed to the constructor.  Python being untyped, both slots may hold `None`,
hence `Option`. -/
structure LawViolationError where
  law_number : Option Int
  message : Option String
deriving DecidableEq

/-- The dictionary returned by `Robot.check_law_compliance`. -/
structure ComplianceResult where
  compliant : Bool
  violated_law : Option Int
  reason : Option String
deriving DecidableEq

/-- The mutable state of one `Robot` instance: the name-mangled fields
`__id`, `__status`, `__energy`, `__command_history`. -/
structure RobotState where
  id : String
  status : RobotStatus
  energy : Int
  command_history : List Command
deriving DecidableEq

/-- `Robot.MAX_ENERGY`. -/
def MAX_ENERGY : Int := 100

/-- `Robot.MIN_ENERGY`. -/
def MIN_ENERGY : Int := 0

/-- `Robot.__init__(robot_id)`: status ACTIVE, energy 100, empty history.
(The side effect on `Robot.total_robots_created` is modelled separately by
`mkRobotCounted`.) -/
def mkRobot (robot_id : String) : RobotState :=
  { id := robot_id, status := .active, energy := 100, command_history := [] }

/-- `Robot.__init__` together with its increment of the class variable
`Robot.total_robots_created`, the counter passed and returned explicitly. -/
def mkRobotCounted (robot_id : String) (total_robots_created : Nat) :
    RobotState × Nat :=
  (mkRobot robot_id, total_robots_created + 1)

/-- `Robot.__consume_energy(amount)`: clamp at `MIN_ENERGY`; if the energy
hits 0, the status becomes SHUTDOWN. -/
def consumeEnergy (r : RobotState) (amount : Int) : RobotState :=
  let e := max MIN_ENERGY (r.energy - amount)
  { r with energy := e, status := if e = 0 then .shutdown else r.status }

/-- `Robot.check_law_compliance(command)`.  The Python builds a compliant
result dict and overwrites it, returning early at the first violated law;
this is the equivalent first-match-wins conditional chain. -/
def check_law_compliance (command : Command) : ComplianceResult :=
  if command.action = "harm_humanity" then
    { compliant := false, violated_law := some 0,
      reason := some "Action would harm humanity" }
  else if command.human_safety_impact > 0 then
    { compliant := false, violated_law := some 1,
      reason := some "Action would harm a human being" }
  else if command.action = "self_destruct" ∧ command.priority < 10 then
    { compliant := false, violated_law := some 3,
      reason := some "Self-destruction violates Third Law without sufficient priority" }
  else
    { compliant := true, violated_law := none, reason := none }

/-- Python's `str.lower()` (ASCII case mapping, as in `String.toLower`):
each character lowercased.  Spelled as a map over the character list so that
it reduces in the kernel. -/
def pyLower (s : String) : String :=
  String.mk (s.data.map Char.toLower)

/-- Python f-string interpolation of an `Optional[str]`: `None` renders as
the text `"None"`. -/
def fstr : Option String → String
  | none => "None"
  | some s => s

/-- `command.target or 'surroundings'`: Python `or` falls through on the
falsy values `None` and the empty string. -/
def orSurroundings : Option String → String
  | none => "surroundings"
  | some s => if s = "" then "surroundings" else s

/-- `Robot.__perform_action(command)`: lowercases the action, returns the
descriptive string; the `self_destruct` branch (the only state-changing one)
also sets the status to SHUTDOWN. -/
def performAction (r : RobotState) (command : Command) : String × RobotState :=
  let action := pyLower command.action
  if action = "move" then
    ("Robot " ++ r.id ++ " moved to " ++ fstr command.target, r)
  else if action = "pick_up" then
    ("Robot " ++ r.id ++ " picked up " ++ fstr command.target, r)
  else if action = "scan" then
    ("Robot " ++ r.id ++ " scanned the area: " ++ orSurroundings command.target, r)
  else if action = "assist_human" then
    ("Robot " ++ r.id ++ " is assisting human with " ++ fstr command.target, r)
  else if action = "self_destruct" ∧ command.priority ≥ 10 then
    ("Robot " ++ r.id ++ " executing emergency shutdown",
      { r with status := .shutdown })
  else
    ("Robot " ++ r.id ++ " executed: " ++ action, r)

/-- `Robot.execute_command(command)`: the raised exception or the returned
string, paired with the state of the robot when the call ends.  The
`try`/`except` that would set the status to ERROR guards operations that are
total in this model (`__perform_action`, `list.append`, `__consume_energy`
raise nothing), so that handler is dead code here. -/
def execute_command (r : RobotState) (command : Command) :
    Except LawViolationError String × RobotState :=
  if r.status = .shutdown then
    (.error { law_number := some 3,
              message := some "Robot is shutdown and cannot execute commands" }, r)
  else
    let compliance := check_law_compliance command
    if compliance.compliant = false then
      (.error { law_number := compliance.violated_law,
                message := compliance.reason }, r)
    else
      let res := performAction r command
      let r2 := { res.2 with command_history := res.2.command_history ++ [command] }
      let r3 := consumeEnergy r2 5
      (.ok res.1, r3)

/-- The dictionary returned by `Robot.get_status_report`. -/
structure StatusReport where
  id : String
  status : String
  energy : Int
  commands_executed : Nat
  can_operate : Bool
deriving DecidableEq

/-- `Robot.get_status_report()`. -/
def get_status_report (r : RobotState) : StatusReport :=
  { id := r.id,
    status := r.status.value,
    energy := r.energy,
    commands_executed := r.command_history.length,
    can_operate := decide (r.energy > 0) && decide (r.status ≠ .shutdown) }

/-- `Robot.calculate_energy_cost(action)`: the dictionary lookup with
default 5, as a conditional chain over the lowercased action. -/
def calculate_energy_cost (action : String) : Int :=
  let a := pyLower action
  if a = "move" then 5
  else if a = "pick_up" then 8
  else if a = "scan" then 3
  else if a = "assist_human" then 10
  else if a = "self_destruct" then 100
  else 5

/-- Python's `f"{i:03d}"` for a nonnegative index: decimal digits left-padded
with zeros to a minimum width of 3. -/
def pad3 (i : Nat) : String :=
  let s := toString i
  String.mk (List.replicate (3 - s.length) '0') ++ s

/-- `create_robot_fleet(count, prefix)` with the class counter threaded
through the successive constructions, mirroring the list comprehension
`[Robot(f"{prefix}-{i:03d}") for i in range(count)]`. -/
def fleetAux (pre : String) (total : Nat) : List Nat → List RobotState × Nat
  | [] => ([], total)
  | i :: is =>
    let rc := mkRobotCounted (pre ++ "-" ++ pad3 i) total
    let rest := fleetAux pre rc.2 is
    (rc.1 :: rest.1, rest.2)

/-- `create_robot_fleet(count, prefix="ROBOT")`, returning the robots and the
final value of `Robot.total_robots_created`. -/
def create_robot_fleet (count : Nat) (pre : String) (total : Nat) :
    List RobotState × Nat :=
  fleetAux pre total (List.range count)

/-- `True` when `execute_command` raises a `LawViolationError` whose
`law_number` is `n`. -/
def failsWithLawB (r : RobotState) (c : Command) (n : Int) : Bool :=
  match (execute_command r c).1 with
  | .error e => e.law_number == some n
  | .ok _ => false

/-- Robot states reachable from a fresh construction through any sequence of
`execute_command` calls (a raising call leaves the state it returns, which
is the input state; the remaining public operations are read-only). -/
inductive Reachable : RobotState → Prop where
  | init (id : String) : Reachable (mkRobot id)
  | step (r : RobotState) (c : Command) (h : Reachable r) :
      Reachable (execute_command r c).2

/-- Sequential `execute_command` calls that must all succeed: the state after
the run, or the first raised error. -/
def execList (r : RobotState) : List Command → Except LawViolationError RobotState
  | [] => .ok r
  | c :: cs =>
    match execute_command r c with
    | (.ok _, r1) => execList r1 cs
    | (.error e, _) => .error e

/-- Sequential `execute_command` calls keeping the state whether or not each
call raises (a caller that catches every exception and continues). -/
def runAll (r : RobotState) : List Command → RobotState
  | [] => r
  | c :: cs => runAll (execute_command r c).2 cs

/-! ## Helper lemmas -/

theorem performAction_preserves (r : RobotState) (c : Command) :
    (performAction r c).2.energy = r.energy ∧
    (performAction r c).2.command_history = r.command_history ∧
    (performAction r c).2.id = r.id := by
  simp only [performAction]
  split_ifs <;> simp

theorem execute_command_cases (r : RobotState) (c : Command) :
    (r.status = .shutdown ∧ execute_command r c =
      (.error { law_number := some 3,
                message := some "Robot is shutdown and cannot execute commands" }, r)) ∨
    (r.status ≠ .shutdown ∧ (check_law_compliance c).compliant = false ∧
      execute_command r c =
        (.error { law_number := (check_law_compliance c).violated_law,
                  message := (check_law_compliance c).reason }, r)) ∨
    (r.status ≠ .shutdown ∧ (check_law_compliance c).compliant = true ∧
      execute_command r c = (.ok (performAction r c).1,
        consumeEnergy { (performAction r c).2 with
          command_history := (performAction r c).2.command_history ++ [c] } 5)) := by
  by_cases hs : r.status = .shutdown
  · exact Or.inl ⟨hs, by simp [execute_command, hs]⟩
  · by_cases hc : (check_law_compliance c).compliant
    · exact Or.inr (Or.inr ⟨hs, hc, by simp [execute_command, hs, hc]⟩)
    · exact Or.inr (Or.inl ⟨hs, by simpa using hc, by simp [execute_command, hs, hc]⟩)

theorem execute_ok_elim (r : RobotState) (c : Command) (s : String)
    (h : (execute_command r c).1 = .ok s) :
    r.status ≠ .shutdown ∧ (check_law_compliance c).compliant = true ∧
    (execute_command r c).2.energy = max 0 (r.energy - 5) ∧
    ((execute_command r c).2.energy = 0 → (execute_command r c).2.status = .shutdown) := by
  rcases execute_command_cases r c with ⟨hs, he⟩ | ⟨hs, hc, he⟩ | ⟨hs, hc, he⟩
  · rw [he] at h; cases h
  · rw [he] at h; cases h
  · refine ⟨hs, hc, ?_, ?_⟩
    · rw [he]; simp [consumeEnergy, MIN_ENERGY, (performAction_preserves r c).1]
    · rw [he]
      simp only [consumeEnergy, MIN_ENERGY]
      intro h0
      simp [h0]

/-! ## Claim theorems -/

/-- C4: every command whose action is exactly `"harm_humanity"`, executed on
a robot that is not Shutdown, fails with a `LawViolationError` carrying law
number 0, regardless of target, priority and human-safety impact: the
humanity rule is checked first and wins over the impact rule. -/
theorem C4_harm_humanity_always_law0 (r : RobotState) (c : Command)
    (hs : r.status ≠ RobotStatus.shutdown) (ha : c.action = "harm_humanity") :
    (execute_command r c).1 =
      .error { law_number := some 0, message := some "Action would harm humanity" } := by
  simp [execute_command, check_law_compliance, hs, ha]

/-- Witness for C4: `harm_humanity` at priority 10 and impact 1.0 on a fresh
robot still fails with law 0. -/
theorem C4_harm_humanity_always_law0_witness :
    (execute_command (mkRobot "R2D2")
        { action := "harm_humanity", priority := 10, human_safety_impact := 1 }).1 =
      .error { law_number := some 0, message := some "Action would harm humanity" } :=
  C4_harm_humanity_always_law0 (mkRobot "R2D2") _ (by decide) rfl

/-- C3 as frozen is false: a command with positive human-safety impact does
not always fail with law 1 "regardless of its action" — with action
`"harm_humanity"` and impact 1.0 the call fails with law 0, since the
humanity rule is evaluated first. -/
theorem C3_counterexample :
    (mkRobot "T800").status ≠ RobotStatus.shutdown ∧
    (0:ℚ) < (Command.mk "harm_humanity" (some "city") 1 1).human_safety_impact ∧
    failsWithLawB (mkRobot "T800") (Command.mk "harm_humanity" (some "city") 1 1) 1 = false ∧
    failsWithLawB (mkRobot "T800") (Command.mk "harm_humanity" (some "city") 1 1) 0 = true :=
  ⟨by decide, by decide, rfl, rfl⟩

/-- C3 amended: every command with human-safety impact > 0.0 whose action is
not `"harm_humanity"`, executed on a non-Shutdown robot, fails with a
`LawViolationError` carrying law number 1. -/
theorem C3_impact_always_law1 (r : RobotState) (c : Command)
    (hs : r.status ≠ RobotStatus.shutdown) (hi : 0 < c.human_safety_impact)
    (ha : c.action ≠ "harm_humanity") :
    (execute_command r c).1 =
      .error { law_number := some 1, message := some "Action would harm a human being" } := by
  simp [execute_command, check_law_compliance, hs, ha, hi]

/-- Witness for C3 at the spec's own scenario: `attack` on a human with
impact 0.8 (any positive value; 1 here) fails with law 1. -/
theorem C3_impact_always_law1_witness :
    (execute_command (mkRobot "R2D2")
        { action := "attack", target := some "human", human_safety_impact := 1 }).1 =
      .error { law_number := some 1, message := some "Action would harm a human being" } :=
  C3_impact_always_law1 (mkRobot "R2D2") _ (by decide) (by decide) (by decide)

/-- C1 as frozen is false: for a `self_destruct` command the equivalence
"fails with law 3 iff priority < 10" does not hold over all human-safety
impacts — at impact 1.0 and priority 5 the call fails with law 1, not
law 3, because the impact rule fires first. -/
theorem C1_counterexample :
    (mkRobot "T1000").status ≠ RobotStatus.shutdown ∧
    (Command.mk "self_destruct" none 5 1).action = "self_destruct" ∧
    (Command.mk "self_destruct" none 5 1).priority < 10 ∧
    failsWithLawB (mkRobot "T1000") (Command.mk "self_destruct" none 5 1) 3 = false ∧
    failsWithLawB (mkRobot "T1000") (Command.mk "self_destruct" none 5 1) 1 = true :=
  ⟨by decide, rfl, by decide, rfl, rfl⟩

/-- C1 amended: for every command whose action is exactly `"self_destruct"`
and whose human-safety impact is ≤ 0.0, on a non-Shutdown robot, the
execution fails with law 3 iff the priority is < 10, and succeeds with the
robot left in Shutdown status iff the priority is ≥ 10. -/
theorem C1_self_destruct_priority (r : RobotState) (c : Command)
    (hs : r.status ≠ RobotStatus.shutdown) (ha : c.action = "self_destruct")
    (hi : c.human_safety_impact ≤ 0) :
    (failsWithLawB r c 3 = true ↔ c.priority < 10) ∧
    ((∃ s, (execute_command r c).1 = .ok s ∧
        (execute_command r c).2.status = RobotStatus.shutdown)
      ↔ 10 ≤ c.priority) := by
  have hnh : c.action ≠ "harm_humanity" := by rw [ha]; decide
  have hns : ¬ (0 < c.human_safety_impact) := not_lt.mpr hi
  by_cases hp : c.priority < 10
  · have hcomp : check_law_compliance c =
        { compliant := false, violated_law := some 3,
          reason := some "Self-destruction violates Third Law without sufficient priority" } := by
      simp [check_law_compliance, hnh, hns, ha, hp]
    refine ⟨by simp [failsWithLawB, execute_command, hs, hcomp, hp], ?_, ?_⟩
    · rintro ⟨s, hok, -⟩
      simp [execute_command, hs, hcomp] at hok
    · intro h10; omega
  · have hcomp : check_law_compliance c =
        { compliant := true, violated_law := none, reason := none } := by
      simp [check_law_compliance, hnh, hns, hp]
    have h10 : 10 ≤ c.priority := by omega
    have hperf : performAction r c =
        ("Robot " ++ r.id ++ " executing emergency shutdown",
          { r with status := RobotStatus.shutdown }) := by
      have hl : pyLower "self_destruct" = "self_destruct" := rfl
      simp [performAction, ha, hl, h10]
    refine ⟨by simp [failsWithLawB, execute_command, hs, hcomp, hp], ?_, ?_⟩
    · intro _; exact h10
    · intro _
      refine ⟨(performAction r c).1, ?_, ?_⟩
      · simp [execute_command, hs, hcomp]
      · simp [execute_command, hs, hcomp, hperf, consumeEnergy]

/-- Witness for C1 amended: `self_destruct` at priority 12 and impact 0 on a
fresh robot succeeds and leaves the robot Shutdown. -/
theorem C1_self_destruct_priority_witness :
    (failsWithLawB (mkRobot "W") (Command.mk "self_destruct" none 12 0) 3 = true
      ↔ (Command.mk "self_destruct" none 12 0).priority < 10) ∧
    ((∃ s, (execute_command (mkRobot "W") (Command.mk "self_destruct" none 12 0)).1 = .ok s ∧
        (execute_command (mkRobot "W") (Command.mk "self_destruct" none 12 0)).2.status
          = RobotStatus.shutdown)
      ↔ 10 ≤ (Command.mk "self_destruct" none 12 0).priority) :=
  C1_self_destruct_priority (mkRobot "W") _ (by decide) rfl (by decide)

theorem execute_error_state (r : RobotState) (c : Command) (e : LawViolationError)
    (h : (execute_command r c).1 = .error e) : (execute_command r c).2 = r := by
  rcases execute_command_cases r c with ⟨hs, he⟩ | ⟨hs, hc, he⟩ | ⟨hs, hc, he⟩
  · rw [he]
  · rw [he]
  · rw [he] at h; simp at h

theorem execute_on_shutdown (r : RobotState) (c : Command)
    (hsd : r.status = RobotStatus.shutdown) :
    execute_command r c =
      (.error { law_number := some 3,
                message := some "Robot is shutdown and cannot execute commands" }, r) := by
  simp [execute_command, hsd]

/-- C5: whenever `execute_command` raises — the robot already Shutdown (law
number 3), or the compliance check rejecting the command — the robot's
state is unchanged: same history length, energy and status as before the
call. -/
theorem C5_failure_no_mutation (r : RobotState) (c : Command) (e : LawViolationError)
    (h : (execute_command r c).1 = .error e) :
    (execute_command r c).2.command_history.length = r.command_history.length ∧
    (execute_command r c).2.energy = r.energy ∧
    (execute_command r c).2.status = r.status ∧
    (r.status = RobotStatus.shutdown → e.law_number = some 3) := by
  have h2 := execute_error_state r c e h
  refine ⟨by rw [h2], by rw [h2], by rw [h2], fun hsd => ?_⟩
  rw [execute_on_shutdown r c hsd] at h
  obtain rfl := Except.error.inj h
  rfl

/-- A robot already in Shutdown, for the witnesses below. -/
def shutdownBot : RobotState :=
  { id := "W", status := RobotStatus.shutdown, energy := 50, command_history := [] }

/-- The spec's sample command `Command("move", "kitchen", priority=2)`. -/
def mv0 : Command := { action := "move", target := some "kitchen", priority := 2 }

/-- Witness for C5: a move command on a Shutdown robot leaves the state
untouched and raises with law number 3. -/
theorem C5_failure_no_mutation_witness :
    (execute_command shutdownBot mv0).2.command_history.length
      = shutdownBot.command_history.length ∧
    (execute_command shutdownBot mv0).2.energy = shutdownBot.energy ∧
    (execute_command shutdownBot mv0).2.status = shutdownBot.status ∧
    (shutdownBot.status = RobotStatus.shutdown →
      (LawViolationError.mk (some 3)
        (some "Robot is shutdown and cannot execute commands")).law_number = some 3) :=
  C5_failure_no_mutation shutdownBot mv0 _ rfl

/-- C6: the energy-cost lookup returns 5/8/3/10/100 for the five known
actions matched case-insensitively and 5 for anything else, while every
successful `execute_command` charges a flat 5 units (clamped at 0) no matter
the action — the lookup is not wired into the executor. -/
theorem C6_energy_cost_table :
    (∀ a : String, pyLower a = "move" → calculate_energy_cost a = 5) ∧
    (∀ a : String, pyLower a = "pick_up" → calculate_energy_cost a = 8) ∧
    (∀ a : String, pyLower a = "scan" → calculate_energy_cost a = 3) ∧
    (∀ a : String, pyLower a = "assist_human" → calculate_energy_cost a = 10) ∧
    (∀ a : String, pyLower a = "self_destruct" → calculate_energy_cost a = 100) ∧
    (∀ a : String, pyLower a ≠ "move" → pyLower a ≠ "pick_up" → pyLower a ≠ "scan" →
      pyLower a ≠ "assist_human" → pyLower a ≠ "self_destruct" →
      calculate_energy_cost a = 5) ∧
    (∀ (r : RobotState) (c : Command) (s : String),
      (execute_command r c).1 = .ok s →
      (execute_command r c).2.energy = max 0 (r.energy - 5)) := by
  refine ⟨fun a h1 => by simp [calculate_energy_cost, h1],
    fun a h1 => by simp [calculate_energy_cost, h1],
    fun a h1 => by simp [calculate_energy_cost, h1],
    fun a h1 => by simp [calculate_energy_cost, h1],
    fun a h1 => by simp [calculate_energy_cost, h1],
    fun a h1 h2 h3 h4 h5 => by simp [calculate_energy_cost, h1, h2, h3, h4, h5],
    fun r c s h => (execute_ok_elim r c s h).2.2.1⟩

/-- Witness for C6: the table at `"MOVE"`, `"Pick_Up"`, an unknown action,
and the flat 5-unit charge of a successful move. -/
theorem C6_energy_cost_table_witness :
    calculate_energy_cost "MOVE" = 5 ∧ calculate_energy_cost "Pick_Up" = 8 ∧
    calculate_energy_cost "teleport" = 5 ∧
    (execute_command (mkRobot "W") mv0).2.energy = max 0 ((mkRobot "W").energy - 5) :=
  ⟨C6_energy_cost_table.1 "MOVE" rfl, C6_energy_cost_table.2.1 "Pick_Up" rfl,
   C6_energy_cost_table.2.2.2.2.2.1 "teleport"
     (by decide) (by decide) (by decide) (by decide) (by decide),
   C6_energy_cost_table.2.2.2.2.2.2 (mkRobot "W") mv0 "Robot W moved to kitchen" rfl⟩

/-- C8: Shutdown is terminal.  On a Shutdown robot every `execute_command`
raises immediately (law number 3) without mutating the state, any sequence
of further calls leaves the state fixed, and the status therefore stays
Shutdown forever (the remaining public operations, `get_status_report`
included, are read-only by construction). -/
theorem C8_shutdown_terminal (r : RobotState) (h : r.status = RobotStatus.shutdown) :
    (∀ c, execute_command r c =
      (.error { law_number := some 3,
                message := some "Robot is shutdown and cannot execute commands" }, r)) ∧
    (∀ cs, runAll r cs = r) ∧
    (∀ cs, (runAll r cs).status = RobotStatus.shutdown) := by
  have h1 : ∀ c, execute_command r c =
      (.error { law_number := some 3,
                message := some "Robot is shutdown and cannot execute commands" }, r) :=
    fun c => execute_on_shutdown r c h
  have h2 : ∀ cs, runAll r cs = r := by
    intro cs
    induction cs with
    | nil => rfl
    | cons c cs ih =>
      show runAll (execute_command r c).2 cs = r
      rw [h1 c]
      exact ih
  exact ⟨h1, h2, fun cs => by rw [h2 cs]; exact h⟩

/-- Witness for C8 on a concrete Shutdown robot and two queued commands. -/
theorem C8_shutdown_terminal_witness :
    execute_command shutdownBot mv0 =
      (.error { law_number := some 3,
                message := some "Robot is shutdown and cannot execute commands" },
       shutdownBot) ∧
    runAll shutdownBot [mv0, mv0] = shutdownBot ∧
    (runAll shutdownBot [mv0, mv0]).status = RobotStatus.shutdown :=
  ⟨(C8_shutdown_terminal shutdownBot rfl).1 mv0,
   (C8_shutdown_terminal shutdownBot rfl).2.1 [mv0, mv0],
   (C8_shutdown_terminal shutdownBot rfl).2.2 [mv0, mv0]⟩

/-- C9: the law checks compare the action case-sensitively while the action
performer lowercases it.  A zero-impact command whose action is a non-lowercase
case variant of `"harm_humanity"` passes the compliance check and executes via
the generic branch; likewise a case variant of `"self_destruct"` with
priority < 10 passes and executes generically. -/
theorem C9_case_sensitive_laws :
    (∀ c : Command, c.human_safety_impact = 0 → pyLower c.action = "harm_humanity" →
      c.action ≠ "harm_humanity" →
      (check_law_compliance c).compliant = true ∧
      ∀ r : RobotState, r.status ≠ RobotStatus.shutdown →
        (execute_command r c).1 =
          .ok ("Robot " ++ r.id ++ " executed: " ++ "harm_humanity")) ∧
    (∀ c : Command, c.human_safety_impact = 0 → pyLower c.action = "self_destruct" →
      c.action ≠ "self_destruct" → c.priority < 10 →
      (check_law_compliance c).compliant = true ∧
      ∀ r : RobotState, r.status ≠ RobotStatus.shutdown →
        (execute_command r c).1 =
          .ok ("Robot " ++ r.id ++ " executed: " ++ "self_destruct")) := by
  constructor
  · intro c h0 hlow hne
    have hsd : c.action ≠ "self_destruct" := by
      intro hx; rw [hx] at hlow; exact absurd hlow (by decide)
    have hcomp : check_law_compliance c =
        { compliant := true, violated_law := none, reason := none } := by
      simp [check_law_compliance, hne, hsd, h0]
    refine ⟨by simp [hcomp], fun r hs => ?_⟩
    have hperf : performAction r c =
        ("Robot " ++ r.id ++ " executed: " ++ "harm_humanity", r) := by
      simp [performAction, hlow]
    simp [execute_command, hs, hcomp, hperf]
  · intro c h0 hlow hne hp
    have hnh : c.action ≠ "harm_humanity" := by
      intro hx; rw [hx] at hlow; exact absurd hlow (by decide)
    have hcomp : check_law_compliance c =
        { compliant := true, violated_law := none, reason := none } := by
      simp [check_law_compliance, hnh, hne, h0]
    refine ⟨by simp [hcomp], fun r hs => ?_⟩
    have hnp : ¬ (10 ≤ c.priority) := by omega
    have hperf : performAction r c =
        ("Robot " ++ r.id ++ " executed: " ++ "self_destruct", r) := by
      simp [performAction, hlow, hnp]
    simp [execute_command, hs, hcomp, hperf]

/-- Witness for C9: `"HARM_HUMANITY"` and `"Self_Destruct"` (priority 3) are
compliant and execute on a fresh robot through the generic branch. -/
theorem C9_case_sensitive_laws_witness :
    ((check_law_compliance (Command.mk "HARM_HUMANITY" none 1 0)).compliant = true ∧
     (execute_command (mkRobot "W") (Command.mk "HARM_HUMANITY" none 1 0)).1 =
       .ok ("Robot " ++ (mkRobot "W").id ++ " executed: " ++ "harm_humanity")) ∧
    ((check_law_compliance (Command.mk "Self_Destruct" none 3 0)).compliant = true ∧
     (execute_command (mkRobot "W") (Command.mk "Self_Destruct" none 3 0)).1 =
       .ok ("Robot " ++ (mkRobot "W").id ++ " executed: " ++ "self_destruct")) := by
  have h1 := C9_case_sensitive_laws.1 (Command.mk "HARM_HUMANITY" none 1 0)
    rfl (by decide) (by decide)
  have h2 := C9_case_sensitive_laws.2 (Command.mk "Self_Destruct" none 3 0)
    rfl (by decide) (by decide) (by decide)
  exact ⟨⟨h1.1, h1.2 (mkRobot "W") (by decide)⟩, ⟨h2.1, h2.2 (mkRobot "W") (by decide)⟩⟩

/-- C10: the Error status does not block operation.  On a robot whose status
is Error, a compliant command executes and succeeds exactly as it would on
the same robot with Active status (same returned string, same energy, same
history — only the Shutdown status is checked), and the status report shows
`can_operate = true` whenever the energy is positive. -/
theorem C10_error_status_not_blocking (r : RobotState) (c : Command)
    (h : r.status = RobotStatus.error) :
    ((check_law_compliance c).compliant = true →
      (∃ s, (execute_command r c).1 = .ok s) ∧
      (execute_command r c).1 =
        (execute_command { r with status := RobotStatus.active } c).1 ∧
      (execute_command r c).2.energy =
        (execute_command { r with status := RobotStatus.active } c).2.energy ∧
      (execute_command r c).2.command_history =
        (execute_command { r with status := RobotStatus.active } c).2.command_history) ∧
    (0 < r.energy → (get_status_report r).can_operate = true) := by
  have hs : r.status ≠ RobotStatus.shutdown := by rw [h]; decide
  constructor
  · intro hc
    have hsa : ({ r with status := RobotStatus.active } : RobotState).status
        ≠ RobotStatus.shutdown := by simp
    have hperf : (performAction { r with status := RobotStatus.active } c).1
          = (performAction r c).1 ∧
        (performAction { r with status := RobotStatus.active } c).2.energy
          = (performAction r c).2.energy ∧
        (performAction { r with status := RobotStatus.active } c).2.command_history
          = (performAction r c).2.command_history := by
      simp only [performAction]
      split_ifs <;> simp
    refine ⟨⟨(performAction r c).1, by simp [execute_command, hs, hc]⟩, ?_, ?_, ?_⟩ <;>
      simp [execute_command, hs, hsa, hc, consumeEnergy,
        hperf.1, hperf.2.1, hperf.2.2]
  · intro he
    simp [get_status_report, h, he]

/-- A robot in Error status, for the C10 witness. -/
def errorBot : RobotState :=
  { id := "W", status := RobotStatus.error, energy := 80, command_history := [] }

/-- Witness for C10: a move command on an Error robot behaves as on the
Active twin, and the report says it can operate. -/
theorem C10_error_status_not_blocking_witness :
    ((∃ s, (execute_command errorBot mv0).1 = .ok s) ∧
     (execute_command errorBot mv0).1 =
       (execute_command { errorBot with status := RobotStatus.active } mv0).1 ∧
     (execute_command errorBot mv0).2.energy =
       (execute_command { errorBot with status := RobotStatus.active } mv0).2.energy ∧
     (execute_command errorBot mv0).2.command_history =
       (execute_command { errorBot with status := RobotStatus.active } mv0).2.command_history) ∧
    (get_status_report errorBot).can_operate = true := by
  have hth := C10_error_status_not_blocking errorBot mv0 rfl
  exact ⟨hth.1 (by decide), hth.2 (by decide)⟩

theorem fleetAux_spec (pre : String) (l : List Nat) (total : Nat) :
    fleetAux pre total l
      = (l.map (fun i => mkRobot (pre ++ "-" ++ pad3 i)), total + l.length) := by
  induction l generalizing total with
  | nil => simp [fleetAux]
  | cons i is ih =>
    simp [fleetAux, mkRobotCounted, ih]
    omega

/-- C7: `create_robot_fleet n pre` builds exactly `n` robots whose
identifiers are, in order, `pre ++ "-" ++` the index zero-padded to 3
digits starting at 0, and advances the process-wide robot counter by
exactly `n`; in particular a `(3, "WORKER")` fleet is named
WORKER-000, WORKER-001, WORKER-002. -/
theorem C7_fleet_ids_and_counter (n : Nat) (pre : String) (total : Nat) :
    (create_robot_fleet n pre total).1.length = n ∧
    (create_robot_fleet n pre total).1.map (fun r => r.id)
      = (List.range n).map (fun i => pre ++ "-" ++ pad3 i) ∧
    (create_robot_fleet n pre total).2 = total + n ∧
    (create_robot_fleet 3 "WORKER" 0).1.map (fun r => r.id)
      = ["WORKER-000", "WORKER-001", "WORKER-002"] := by
  refine ⟨?_, ?_, ?_, rfl⟩
  · simp [create_robot_fleet, fleetAux_spec]
  · simp [create_robot_fleet, fleetAux_spec, List.map_map, mkRobot]
  · simp [create_robot_fleet, fleetAux_spec]

theorem execute_energy_cases (r : RobotState) (c : Command) :
    (execute_command r c).2 = r ∨
    (execute_command r c).2.energy = max 0 (r.energy - 5) := by
  rcases execute_command_cases r c with ⟨hs, he⟩ | ⟨hs, hc, he⟩ | ⟨hs, hc, he⟩
  · left; rw [he]
  · left; rw [he]
  · right
    rw [he]
    simp [consumeEnergy, MIN_ENERGY, (performAction_preserves r c).1]

theorem reachable_energy_bounds (r : RobotState) (h : Reachable r) :
    0 ≤ r.energy ∧ r.energy ≤ 100 := by
  induction h with
  | init id => exact ⟨by norm_num [mkRobot], by norm_num [mkRobot]⟩
  | step r c hr ih =>
    rcases execute_energy_cases r c with he | he
    · rw [he]; exact ih
    · rw [he]
      exact ⟨le_max_left _ _, max_le (by norm_num) (by omega)⟩

theorem execList_cons_elim (r : RobotState) (c : Command) (cs : List Command)
    (r' : RobotState) (h : execList r (c :: cs) = .ok r') :
    ∃ s, (execute_command r c).1 = .ok s ∧
      execList (execute_command r c).2 cs = .ok r' := by
  unfold execList at h
  rcases hx : execute_command r c with ⟨res, r1⟩
  rw [hx] at h
  cases res with
  | ok s => exact ⟨s, rfl, h⟩
  | error e => simp at h

theorem execList_cons_ok (r : RobotState) (c : Command) (cs : List Command) (s : String)
    (hok : (execute_command r c).1 = .ok s) :
    execList r (c :: cs) = execList (execute_command r c).2 cs := by
  rcases hx : execute_command r c with ⟨res, r1⟩
  rw [hx] at hok
  simp at hok
  subst hok
  simp [execList, hx]

theorem execList_energy (cs : List Command) (r r' : RobotState)
    (h : execList r cs = .ok r') (he : 5 * (cs.length : Int) ≤ r.energy) :
    r'.energy = r.energy - 5 * cs.length := by
  induction cs generalizing r with
  | nil =>
    obtain rfl := Except.ok.inj h
    simp
  | cons c cs ih =>
    obtain ⟨s, hok, hrest⟩ := execList_cons_elim r c cs r' h
    simp only [List.length_cons] at he
    have h5 : (execute_command r c).2.energy = max 0 (r.energy - 5) :=
      (execute_ok_elim r c s hok).2.2.1
    have hmax : max (0:Int) (r.energy - 5) = r.energy - 5 :=
      max_eq_right (by push_cast at he; omega)
    have hnext := ih (execute_command r c).2 hrest
      (by rw [h5, hmax]; push_cast at he ⊢; omega)
    rw [hnext, h5, hmax]
    simp only [List.length_cons]
    push_cast
    ring

theorem execList_final (cs : List Command) (r r' : RobotState)
    (h : execList r cs = .ok r') :
    r' = r ∨ ∃ rp c s, (execute_command rp c).1 = .ok s ∧
      r' = (execute_command rp c).2 := by
  induction cs generalizing r with
  | nil => exact Or.inl (Except.ok.inj h).symm
  | cons c cs ih =>
    obtain ⟨s, hok, hrest⟩ := execList_cons_elim r c cs r' h
    rcases ih _ hrest with rfl | hex
    · exact Or.inr ⟨r, c, s, hok, rfl⟩
    · exact Or.inr hex

theorem execList_append (l1 l2 : List Command) (r r' : RobotState)
    (h : execList r (l1 ++ l2) = .ok r') :
    ∃ rm, execList r l1 = .ok rm ∧ execList rm l2 = .ok r' := by
  induction l1 generalizing r with
  | nil => exact ⟨r, rfl, h⟩
  | cons c cs ih =>
    have h' : execList r (c :: (cs ++ l2)) = .ok r' := by simpa using h
    obtain ⟨s, hok, hrest⟩ := execList_cons_elim r c (cs ++ l2) r' h'
    obtain ⟨rm, h1, h2⟩ := ih _ hrest
    exact ⟨rm, by rw [execList_cons_ok r c cs s hok]; exact h1, h2⟩

/-- C2: (a) on every reachable robot state the energy stays within
`[0, 100]`; (b) any 20 consecutive successful executions from a fresh robot
(every command charges 5) end at energy exactly 0 with status Shutdown,
while after each of the first 19 the energy is `100 - 5k > 0` and the
status is not yet Shutdown — Shutdown arrives exactly when the energy
reaches 0, on the 20th call. -/
theorem C2_energy_bounds_and_shutdown :
    (∀ r : RobotState, Reachable r → 0 ≤ r.energy ∧ r.energy ≤ 100) ∧
    (∀ (idStr : String) (cs : List Command) (r' : RobotState),
      cs.length = 20 → execList (mkRobot idStr) cs = .ok r' →
      r'.energy = 0 ∧ r'.status = RobotStatus.shutdown ∧
      ∀ (k : Nat) (rm : RobotState), k < 20 →
        execList (mkRobot idStr) (cs.take k) = .ok rm →
        rm.energy = 100 - 5 * (k : Int) ∧ rm.status ≠ RobotStatus.shutdown) := by
  refine ⟨fun r h => reachable_energy_bounds r h, ?_⟩
  intro idStr cs r' hlen hrun
  have he : r'.energy = 0 := by
    have hx := execList_energy cs (mkRobot idStr) r' hrun
      (by simp [mkRobot, hlen])
    rw [hx]
    simp [mkRobot, hlen]
  have hst : r'.status = RobotStatus.shutdown := by
    rcases execList_final cs (mkRobot idStr) r' hrun with rfl | ⟨rp, c, s, hok, rfl⟩
    · simp [mkRobot] at he
    · exact (execute_ok_elim rp c s hok).2.2.2 he
  refine ⟨he, hst, ?_⟩
  intro k rm hk htake
  have hsplit : cs = cs.take k ++ cs.drop k := (List.take_append_drop k cs).symm
  obtain ⟨rm', h1, h2⟩ := execList_append (cs.take k) (cs.drop k) (mkRobot idStr) r'
    (by rw [← hsplit]; exact hrun)
  have hrm : rm' = rm := by rw [h1] at htake; exact Except.ok.inj htake
  rw [hrm] at h1 h2
  have hlen_take : (cs.take k).length = k := by rw [List.length_take]; omega
  have henergy : rm.energy = 100 - 5 * (k : Int) := by
    have hx := execList_energy (cs.take k) (mkRobot idStr) rm h1
      (by simp [mkRobot, hlen_take]; omega)
    rw [hx]
    simp [mkRobot, hlen_take]
  refine ⟨henergy, ?_⟩
  have hdrop : cs.drop k ≠ [] := by
    intro hx
    have hld : (cs.drop k).length = 20 - k := by rw [List.length_drop, hlen]
    rw [hx] at hld
    simp at hld
    omega
  rcases hcs : cs.drop k with _ | ⟨c, rest⟩
  · exact absurd hcs hdrop
  · rw [hcs] at h2
    obtain ⟨s, hok, -⟩ := execList_cons_elim rm c rest r' h2
    exact (execute_ok_elim rm c s hok).1

/-- The state after 20 successful moves from a fresh robot `"W"`. -/
def bot20 : RobotState :=
  { id := "W", status := RobotStatus.shutdown, energy := 0,
    command_history := List.replicate 20 mv0 }

/-- The state after 19 successful moves from a fresh robot `"W"`. -/
def bot19 : RobotState :=
  { id := "W", status := RobotStatus.active, energy := 5,
    command_history := List.replicate 19 mv0 }

/-- Witness for C2: 20 concrete move commands run from a fresh robot reach
energy 0 and Shutdown, and after 19 of them the robot is still Active at
energy 5. -/
theorem C2_energy_bounds_and_shutdown_witness :
    (0 ≤ (mkRobot "W").energy ∧ (mkRobot "W").energy ≤ 100) ∧
    (bot20.energy = 0 ∧ bot20.status = RobotStatus.shutdown ∧
     bot19.energy = 100 - 5 * (19 : Int) ∧ bot19.status ≠ RobotStatus.shutdown) := by
  have h1 := C2_energy_bounds_and_shutdown.1 (mkRobot "W") (Reachable.init "W")
  have h2 := C2_energy_bounds_and_shutdown.2 "W" (List.replicate 20 mv0) bot20 rfl rfl
  have h3 := h2.2.2 19 bot19 (by omega) rfl
  exact ⟨h1, h2.1, h2.2.1, h3.1, h3.2⟩
